import Mathlib

/-!
Shallow embedding of `src/main.py` (NIST CSF 2.0 Control Extractor).

The Python program manipulates JSON-like dictionaries.  We model the parts of
a document that `extract_controls_by_id` reads or writes as structure fields
(`title`, `description`, `securityControls`, `controlId`) and keep every other
key of each mapping in an opaque association list that the function passes
through untouched.

`data.copy()` at line 50 of `src/main.py` is a shallow copy: the copied
top-level dictionary still references the very same nested `catalog`
dictionary, so the later assignments `filtered_data['catalog'][...] = ...`
(lines 73, 78 and 82) mutate the caller's catalog as well.  The embedding
makes that aliasing explicit: `extract_controls_by_id` returns a pair of the
Python function's return value (or its `ValueError`, as `Except.error`) and
the state of the caller's `data` argument after the call.
-/

namespace NistCsf

/-- A Python value that can sit in a control's `controlId` slot: a string, or
any non-string value (tagged by a number so that distinct non-strings stay
distinct).  In Python a non-string value of the kinds occurring in JSON never
compares equal to a string, so `control.get('controlId') in control_ids` is
false for every non-string value. -/
inductive PyVal where
  | str : String → PyVal
  | other : Nat → PyVal
deriving DecidableEq, Repr

/-- One record of `catalog.securityControls`.  `controlId`, `title` and
`family` are the fields the program reads; `extra` stands for all remaining
keys, preserved verbatim because the loop appends the control object itself. -/
structure Control where
  controlId : Option PyVal
  title : Option String
  family : Option String
  extra : List (String × PyVal)
deriving DecidableEq, Repr

/-- The nested `catalog` mapping.  `none` in a field means the key is absent. -/
structure Catalog where
  title : Option String
  description : Option String
  securityControls : Option (List Control)
  extra : List (String × PyVal)
deriving DecidableEq, Repr

/-- A parsed top-level document: the `catalog` key (absent when `none`) and
every other top-level key. -/
structure Document where
  catalog : Option Catalog
  extra : List (String × PyVal)
deriving DecidableEq, Repr

/-- `catalog.securityControls` of a document, when both keys are present. -/
def Document.controls (d : Document) : Option (List Control) :=
  d.catalog.bind Catalog.securityControls

/-- The message of the `ValueError` raised at line 54 of `src/main.py` (the
spec calls this failure `StructureError`). -/
def structureErrorMsg : String :=
  "Invalid NIST CSF structure: missing catalog.securityControls"

/-- Line 63 of `src/main.py`: `control.get('controlId') in control_ids`.
`get` yields `None` when the key is absent; neither `None` nor a non-string
value equals any of the requested strings. -/
def controlIdMatches (control_ids : List String) (control : Control) : Bool :=
  match control.controlId with
  | some (PyVal.str s) => control_ids.contains s
  | _ => false

/-- Lines 59-64: the controls kept by the loop, in the original order. -/
def filteredControls (original_controls : List Control) (control_ids : List String) :
    List Control :=
  original_controls.filter (controlIdMatches control_ids)

/-- The `controlId` of a control when it is present and a string. -/
def controlIdString (c : Control) : Option String :=
  match c.controlId with
  | some (PyVal.str s) => some s
  | _ => none

/-- Line 65: the set `found_ids`, as the list of ids of the matched controls
(the program only ever tests membership in this set). -/
def foundIds (original_controls : List Control) (control_ids : List String) :
    List String :=
  (filteredControls original_controls control_ids).filterMap controlIdString

/-- Line 68: `missing_ids = set(control_ids) - found_ids`, as a duplicate-free
list (the program only prints it sorted and tests whether it is empty, so only
membership matters). -/
def missingIds (original_controls : List Control) (control_ids : List String) :
    List String :=
  (control_ids.filter fun s =>
    !((foundIds original_controls control_ids).contains s)).dedup

/-- The fixed HTML fragment appended to the description (lines 84-85),
stating the count of controls kept. -/
def htmlNote (n : Nat) : String :=
  "<p><strong>Note:</strong> This is a filtered version containing only " ++
    toString n ++ " specific controls extracted from the original framework.</p>"

/-- Lines 77-78: the new `catalog['title']`.  A missing title falls back to
the default `'NIST CSF 2.0'` of `dict.get`. -/
def filteredTitle (title : Option String) (n : Nat) : String :=
  (title.getD "NIST CSF 2.0") ++ " (Filtered - " ++ toString n ++ " controls)"

/-- Lines 81-86: the new `catalog['description']`.  A missing description
falls back to the empty string. -/
def filteredDescription (descr : Option String) (n : Nat) : String :=
  (descr.getD "") ++ "\n\n" ++ htmlNote n

/-- Lines 73-86 applied to the (aliased) catalog dictionary: the control list
replaced, title and description annotated, every other key untouched. -/
def filteredCatalog (catalog : Catalog) (original_controls : List Control)
    (control_ids : List String) : Catalog :=
  { title := some (filteredTitle catalog.title
      (filteredControls original_controls control_ids).length)
    description := some (filteredDescription catalog.description
      (filteredControls original_controls control_ids).length)
    securityControls := some (filteredControls original_controls control_ids)
    extra := catalog.extra }

/-- The value returned by `extract_controls_by_id` together with the computed
`missing_ids` that line 70 surfaces as a warning. -/
structure ExtractResult where
  filtered_data : Document
  missing_ids : List String
deriving DecidableEq, Repr

/-- `extract_controls_by_id` of `src/main.py` (lines 38-88).

First component: the Python return value, or `Except.error` for the
`ValueError` of line 54.  Second component: the caller's `data` after the
call.  Because `data.copy()` (line 50) only copies the top level, the copy
shares the nested `catalog` dictionary with `data`, and the assignments of
lines 73, 78 and 82 mutate that shared dictionary: on success the caller's
document ends up holding the same filtered catalog as the returned document,
while its other top-level keys are untouched.  On the error path nothing has
been assigned yet, so `data` is unchanged. -/
def extract_controls_by_id (data : Document) (control_ids : List String) :
    Except String ExtractResult × Document :=
  match data.catalog with
  | none => (Except.error structureErrorMsg, data)
  | some catalog =>
    match catalog.securityControls with
    | none => (Except.error structureErrorMsg, data)
    | some original_controls =>
      let newData : Document :=
        { catalog := some (filteredCatalog catalog original_controls control_ids)
          extra := data.extra }
      (Except.ok
        { filtered_data := newData
          missing_ids := missingIds original_controls control_ids },
        newData)

/-- `TARGET_CONTROL_IDS` of `src/main.py` (lines 134-139). -/
def TARGET_CONTROL_IDS : List String :=
  ["ID.AM-03", "ID.AM-07", "ID.AM-08", "ID.IM-01", "ID.IM-02", "ID.IM-03",
   "ID.RA-01", "ID.RA-07", "PR.AA-05", "PR.DS-01", "PR.DS-02", "PR.DS-10",
   "PR.IR-01", "PR.PS-01", "PR.PS-05", "DE.AE-02", "DE.AE-03", "DE.CM-01",
   "DE.CM-02", "DE.CM-03", "DE.CM-06", "DE.CM-09"]

/-- Line 169 of `src/main.py`:
`control_ids = args.controls if args.controls else TARGET_CONTROL_IDS`.
With `nargs='*'`, `args.controls` is `None` when the `--controls` flag is
absent and a (possibly empty) list of strings when it is given; both `None`
and the empty list are falsy in Python, so both select the default list. -/
def resolveControlIds (argControls : Option (List String)) : List String :=
  match argControls with
  | none => TARGET_CONTROL_IDS
  | some l => if l.isEmpty then TARGET_CONTROL_IDS else l

/-- A sample control with id `A`. -/
def ctrlA : Control :=
  { controlId := some (PyVal.str "A"), title := some "Asset management"
    family := some "ID", extra := [("weight", PyVal.other 1)] }

/-- A sample control with id `B`. -/
def ctrlB : Control :=
  { controlId := some (PyVal.str "B"), title := some "Backups"
    family := some "PR", extra := [] }

/-- A sample control whose `controlId` key is absent. -/
def ctrlNoId : Control :=
  { controlId := none, title := some "Stray", family := none, extra := [] }

/-- A sample control whose `controlId` is present but not a string. -/
def ctrlNumId : Control :=
  { controlId := some (PyVal.other 7), title := some "Numeric", family := none
    extra := [] }

/-- A sample well-shaped catalog. -/
def exCatalog : Catalog :=
  { title := some "T", description := some "D"
    securityControls := some [ctrlA, ctrlB, ctrlNoId, ctrlNumId]
    extra := [("uuid", PyVal.str "u-1")] }

/-- A sample well-shaped document. -/
def exDoc : Document :=
  { catalog := some exCatalog, extra := [("version", PyVal.str "2.0")] }

/-- A sample document whose `catalog` key is absent. -/
def badDoc : Document :=
  { catalog := none, extra := [] }

/-- A sample catalog whose `securityControls` key is absent. -/
def badCatalog : Catalog :=
  { title := some "T", description := none, securityControls := none, extra := [] }

/-- A sample document with a catalog but no `securityControls`. -/
def badDoc2 : Document :=
  { catalog := some badCatalog, extra := [] }

/-- On a well-shaped document the function succeeds; both the returned
document and the caller's document afterwards hold the filtered catalog. -/
theorem extract_ok (data : Document) (catalog : Catalog)
    (original_controls : List Control) (control_ids : List String)
    (h1 : data.catalog = some catalog)
    (h2 : catalog.securityControls = some original_controls) :
    extract_controls_by_id data control_ids =
      (Except.ok
        { filtered_data :=
            { catalog := some (filteredCatalog catalog original_controls control_ids)
              extra := data.extra }
          missing_ids := missingIds original_controls control_ids },
        { catalog := some (filteredCatalog catalog original_controls control_ids)
          extra := data.extra }) := by
  simp only [extract_controls_by_id, h1, h2]

/-- On a document missing `catalog` or `catalog.securityControls` the
function raises, and the caller's document is returned unchanged. -/
theorem extract_err (data : Document) (control_ids : List String)
    (h : data.controls = none) :
    extract_controls_by_id data control_ids = (Except.error structureErrorMsg, data) := by
  cases hc : data.catalog with
  | none => simp only [extract_controls_by_id, hc]
  | some catalog =>
    cases hs : catalog.securityControls with
    | none => simp only [extract_controls_by_id, hc, hs]
    | some cs =>
      exfalso
      rw [Document.controls, hc] at h
      simp [hs] at h

/-- `controlIdString` names a string exactly when `controlId` holds it. -/
theorem controlIdString_eq_some (c : Control) (s : String) :
    controlIdString c = some s ↔ c.controlId = some (PyVal.str s) := by
  unfold controlIdString
  cases hc : c.controlId with
  | none => simp
  | some v =>
    cases v with
    | str t => simp
    | other n => simp

/-- A control matches exactly when its `controlId` is one of the requested
strings. -/
theorem controlIdMatches_iff (control_ids : List String) (c : Control) :
    controlIdMatches control_ids c = true ↔
      ∃ s, c.controlId = some (PyVal.str s) ∧ s ∈ control_ids := by
  unfold controlIdMatches
  cases hc : c.controlId with
  | none => simp
  | some v =>
    cases v with
    | str t => simp [List.contains, List.elem_iff]
    | other n => simp

/-- Membership in `found_ids`. -/
theorem mem_foundIds (original_controls : List Control) (control_ids : List String)
    (s : String) :
    s ∈ foundIds original_controls control_ids ↔
      ∃ c ∈ filteredControls original_controls control_ids,
        c.controlId = some (PyVal.str s) := by
  unfold foundIds
  rw [List.mem_filterMap]
  constructor
  · rintro ⟨c, hc, hcs⟩
    exact ⟨c, hc, (controlIdString_eq_some c s).1 hcs⟩
  · rintro ⟨c, hc, hcs⟩
    exact ⟨c, hc, (controlIdString_eq_some c s).2 hcs⟩

/-- Membership in `missing_ids`: requested and matched by no kept control. -/
theorem mem_missingIds (original_controls : List Control) (control_ids : List String)
    (s : String) :
    s ∈ missingIds original_controls control_ids ↔
      s ∈ control_ids ∧
        ¬ ∃ c ∈ filteredControls original_controls control_ids,
            c.controlId = some (PyVal.str s) := by
  rw [← mem_foundIds]
  unfold missingIds
  rw [List.mem_dedup, List.mem_filter]
  simp [List.contains, List.elem_eq_mem]

/-- The match test only looks at membership in the requested list, so any
permutation of the requested list gives the same test. -/
theorem controlIdMatches_perm (control_ids control_ids' : List String) (c : Control)
    (h : control_ids.Perm control_ids') :
    controlIdMatches control_ids c = controlIdMatches control_ids' c := by
  unfold controlIdMatches
  cases c.controlId with
  | none => rfl
  | some v =>
    cases v with
    | str s => simp [List.contains, List.elem_eq_mem, h.mem_iff]
    | other n => rfl

/-- Filtering is idempotent on the control list. -/
theorem filteredControls_idem (l : List Control) (control_ids : List String) :
    filteredControls (filteredControls l control_ids) control_ids =
      filteredControls l control_ids := by
  unfold filteredControls
  rw [List.filter_filter]
  exact List.filter_congr fun c _ => Bool.and_self _

/-- C1 The claim fails on the code: `data.copy()` at line 50 copies only the
top level, so the assignments of lines 73, 78 and 82 mutate the caller's
catalog in place.  At a concrete document, the caller's catalog title after
the call differs from its title before the call. -/
theorem C1_counterexample :
    (extract_controls_by_id exDoc ["A"]).2.catalog.map Catalog.title ≠
      exDoc.catalog.map Catalog.title := by
  decide

/-- C1 (amended) The call leaves the caller's top-level mapping keys intact
(the non-catalog entries are unchanged), but the nested catalog mapping
passed in is mutated in place: after the call the caller's document holds
exactly the returned filtered catalog — filtered `securityControls` and
annotated `title` and `description` — rather than the original one. -/
theorem C1_shallow_copy_mutates_caller_catalog (data : Document) (catalog : Catalog)
    (original_controls : List Control) (control_ids : List String)
    (h1 : data.catalog = some catalog)
    (h2 : catalog.securityControls = some original_controls) :
    ∃ res, (extract_controls_by_id data control_ids).1 = Except.ok res ∧
      (extract_controls_by_id data control_ids).2 = res.filtered_data ∧
      res.filtered_data.extra = data.extra ∧
      res.filtered_data.catalog =
        some (filteredCatalog catalog original_controls control_ids) := by
  rw [extract_ok data catalog original_controls control_ids h1 h2]
  exact ⟨_, rfl, rfl, rfl, rfl⟩

/-- C1 witness at a concrete document. -/
theorem C1_witness :
    ∃ res, (extract_controls_by_id exDoc ["A"]).1 = Except.ok res ∧
      (extract_controls_by_id exDoc ["A"]).2 = res.filtered_data ∧
      res.filtered_data.extra = exDoc.extra ∧
      res.filtered_data.catalog =
        some (filteredCatalog exCatalog [ctrlA, ctrlB, ctrlNoId, ctrlNumId] ["A"]) :=
  C1_shallow_copy_mutates_caller_catalog exDoc exCatalog
    [ctrlA, ctrlB, ctrlNoId, ctrlNumId] ["A"] rfl rfl

/-- C2 Soundness and completeness of the filter: every output control carries
a requested id, output controls come from the input, every matching input
control is kept, and controls sharing a `controlId` are all kept (counts are
preserved, no deduplication of source data). -/
theorem C2_filter_sound_and_complete (data : Document) (catalog : Catalog)
    (original_controls : List Control) (control_ids : List String)
    (h1 : data.catalog = some catalog)
    (h2 : catalog.securityControls = some original_controls) :
    ∃ res outControls,
      (extract_controls_by_id data control_ids).1 = Except.ok res ∧
      res.filtered_data.controls = some outControls ∧
      (∀ c ∈ outControls, ∃ s, c.controlId = some (PyVal.str s) ∧ s ∈ control_ids) ∧
      (∀ c ∈ outControls, c ∈ original_controls) ∧
      (∀ c ∈ original_controls, controlIdMatches control_ids c = true → c ∈ outControls) ∧
      (∀ c : Control, controlIdMatches control_ids c = true →
        outControls.count c = original_controls.count c) := by
  rw [extract_ok data catalog original_controls control_ids h1 h2]
  refine ⟨_, filteredControls original_controls control_ids, rfl, rfl, ?_, ?_, ?_, ?_⟩
  · intro c hc
    exact (controlIdMatches_iff control_ids c).1 (List.mem_filter.mp hc).2
  · intro c hc
    exact (List.mem_filter.mp hc).1
  · intro c hc hm
    exact List.mem_filter.mpr ⟨hc, hm⟩
  · intro c hm
    exact List.count_filter hm

/-- C2 witness at a concrete document. -/
theorem C2_witness :
    ∃ res outControls,
      (extract_controls_by_id exDoc ["A", "Z"]).1 = Except.ok res ∧
      res.filtered_data.controls = some outControls ∧
      (∀ c ∈ outControls, ∃ s, c.controlId = some (PyVal.str s) ∧ s ∈ ["A", "Z"]) ∧
      (∀ c ∈ outControls, c ∈ [ctrlA, ctrlB, ctrlNoId, ctrlNumId]) ∧
      (∀ c ∈ [ctrlA, ctrlB, ctrlNoId, ctrlNumId],
        controlIdMatches ["A", "Z"] c = true → c ∈ outControls) ∧
      (∀ c : Control, controlIdMatches ["A", "Z"] c = true →
        outControls.count c = List.count c [ctrlA, ctrlB, ctrlNoId, ctrlNumId]) :=
  C2_filter_sound_and_complete exDoc exCatalog [ctrlA, ctrlB, ctrlNoId, ctrlNumId]
    ["A", "Z"] rfl rfl

/-- C3 The output is exactly the subsequence of the original control sequence
made of the matching controls, in the original order, and permuting the
requested identifier list leaves the output control sequence unchanged. -/
theorem C3_output_order_and_perm_invariant (data : Document) (catalog : Catalog)
    (original_controls : List Control) (control_ids control_ids' : List String)
    (h1 : data.catalog = some catalog)
    (h2 : catalog.securityControls = some original_controls)
    (hperm : control_ids.Perm control_ids') :
    ∃ res res' outControls,
      (extract_controls_by_id data control_ids).1 = Except.ok res ∧
      (extract_controls_by_id data control_ids').1 = Except.ok res' ∧
      res.filtered_data.controls = some outControls ∧
      res'.filtered_data.controls = some outControls ∧
      outControls = original_controls.filter (controlIdMatches control_ids) ∧
      outControls.Sublist original_controls := by
  rw [extract_ok data catalog original_controls control_ids h1 h2,
    extract_ok data catalog original_controls control_ids' h1 h2]
  refine ⟨_, _, filteredControls original_controls control_ids, rfl, rfl, rfl, ?_, rfl,
    List.filter_sublist original_controls⟩
  show some (filteredControls original_controls control_ids') =
    some (filteredControls original_controls control_ids)
  unfold filteredControls
  rw [List.filter_congr fun c _ => controlIdMatches_perm control_ids control_ids' c hperm]

/-- C3 witness at a concrete document with a transposed request list. -/
theorem C3_witness :
    ∃ res res' outControls,
      (extract_controls_by_id exDoc ["A", "B"]).1 = Except.ok res ∧
      (extract_controls_by_id exDoc ["B", "A"]).1 = Except.ok res' ∧
      res.filtered_data.controls = some outControls ∧
      res'.filtered_data.controls = some outControls ∧
      outControls = List.filter (controlIdMatches ["A", "B"]) [ctrlA, ctrlB, ctrlNoId, ctrlNumId] ∧
      outControls.Sublist [ctrlA, ctrlB, ctrlNoId, ctrlNumId] :=
  C3_output_order_and_perm_invariant exDoc exCatalog [ctrlA, ctrlB, ctrlNoId, ctrlNumId]
    ["A", "B"] ["B", "A"] rfl rfl (by decide)

/-- C4 The transform fails exactly when `catalog` or
`catalog.securityControls` is absent; every failure carries the
`StructureError` message and leaves the caller's document unchanged, with no
result produced. -/
theorem C4_structure_error_iff (data : Document) (control_ids : List String) :
    ((∃ e, (extract_controls_by_id data control_ids).1 = Except.error e) ↔
      (data.catalog = none ∨
        ∃ catalog, data.catalog = some catalog ∧ catalog.securityControls = none)) ∧
    ((data.catalog = none ∨
        ∃ catalog, data.catalog = some catalog ∧ catalog.securityControls = none) →
      extract_controls_by_id data control_ids = (Except.error structureErrorMsg, data)) := by
  cases hc : data.catalog with
  | none =>
    have he : extract_controls_by_id data control_ids =
        (Except.error structureErrorMsg, data) := by
      simp only [extract_controls_by_id, hc]
    refine ⟨?_, fun _ => he⟩
    rw [he]
    exact iff_of_true ⟨structureErrorMsg, rfl⟩ (Or.inl rfl)
  | some catalog =>
    cases hs : catalog.securityControls with
    | none =>
      have he : extract_controls_by_id data control_ids =
          (Except.error structureErrorMsg, data) := by
        simp only [extract_controls_by_id, hc, hs]
      refine ⟨?_, fun _ => he⟩
      rw [he]
      exact iff_of_true ⟨structureErrorMsg, rfl⟩ (Or.inr ⟨catalog, rfl, hs⟩)
    | some cs =>
      have he := extract_ok data catalog cs control_ids hc hs
      constructor
      · rw [he]
        apply iff_of_false
        · rintro ⟨e, hee⟩
          simp at hee
        · rintro (hnone | ⟨catalog', hceq, hs'⟩)
          · exact Option.noConfusion hnone
          · injection hceq with hceq
            subst hceq
            rw [hs] at hs'
            exact Option.noConfusion hs'
      · rintro (hnone | ⟨catalog', hceq, hs'⟩)
        · exact Option.noConfusion hnone
        · injection hceq with hceq
          subst hceq
          rw [hs] at hs'
          exact Option.noConfusion hs'

/-- C5 The output title is the original title followed by the exact suffix,
and the output description is the original description (empty string when the
key is absent) followed by a blank line and the fixed HTML note stating the
count of kept controls. -/
theorem C5_metadata_annotations (data : Document) (catalog : Catalog)
    (original_controls : List Control) (control_ids : List String) (t : String)
    (h1 : data.catalog = some catalog)
    (h2 : catalog.securityControls = some original_controls)
    (ht : catalog.title = some t) :
    ∃ res outCatalog outControls,
      (extract_controls_by_id data control_ids).1 = Except.ok res ∧
      res.filtered_data.catalog = some outCatalog ∧
      outCatalog.securityControls = some outControls ∧
      outCatalog.title =
        some (t ++ " (Filtered - " ++ toString outControls.length ++ " controls)") ∧
      outCatalog.description =
        some ((catalog.description.getD "") ++ "\n\n" ++ htmlNote outControls.length) := by
  rw [extract_ok data catalog original_controls control_ids h1 h2]
  refine ⟨_, _, _, rfl, rfl, rfl, ?_, rfl⟩
  simp [filteredCatalog, filteredTitle, ht]

/-- C5 witness at a concrete document. -/
theorem C5_witness :
    ∃ res outCatalog outControls,
      (extract_controls_by_id exDoc ["A", "B"]).1 = Except.ok res ∧
      res.filtered_data.catalog = some outCatalog ∧
      outCatalog.securityControls = some outControls ∧
      outCatalog.title =
        some ("T" ++ " (Filtered - " ++ toString outControls.length ++ " controls)") ∧
      outCatalog.description =
        some ((exCatalog.description.getD "") ++ "\n\n" ++ htmlNote outControls.length) :=
  C5_metadata_annotations exDoc exCatalog [ctrlA, ctrlB, ctrlNoId, ctrlNumId]
    ["A", "B"] "T" rfl rfl rfl

/-- C6 The not-found set holds exactly the requested identifiers matched by
no kept control; it is advisory: the operation succeeds and the kept controls
are the filter of the original list regardless of it. -/
theorem C6_missing_ids_advisory (data : Document) (catalog : Catalog)
    (original_controls : List Control) (control_ids : List String)
    (h1 : data.catalog = some catalog)
    (h2 : catalog.securityControls = some original_controls) :
    ∃ res outControls,
      (extract_controls_by_id data control_ids).1 = Except.ok res ∧
      res.filtered_data.controls = some outControls ∧
      outControls = filteredControls original_controls control_ids ∧
      (∀ s : String, s ∈ res.missing_ids ↔
        (s ∈ control_ids ∧ ¬ ∃ c ∈ outControls, c.controlId = some (PyVal.str s))) := by
  rw [extract_ok data catalog original_controls control_ids h1 h2]
  refine ⟨_, _, rfl, rfl, rfl, ?_⟩
  intro s
  exact mem_missingIds original_controls control_ids s

/-- C6 witness at a concrete document where `Z` is not found. -/
theorem C6_witness :
    ∃ res outControls,
      (extract_controls_by_id exDoc ["A", "Z"]).1 = Except.ok res ∧
      res.filtered_data.controls = some outControls ∧
      outControls = filteredControls [ctrlA, ctrlB, ctrlNoId, ctrlNumId] ["A", "Z"] ∧
      (∀ s : String, s ∈ res.missing_ids ↔
        (s ∈ ["A", "Z"] ∧ ¬ ∃ c ∈ outControls, c.controlId = some (PyVal.str s))) :=
  C6_missing_ids_advisory exDoc exCatalog [ctrlA, ctrlB, ctrlNoId, ctrlNumId]
    ["A", "Z"] rfl rfl

/-- C7 Re-filtering the filtered document with the same identifier list
yields the same control list as the first application. -/
theorem C7_refilter_idempotent (data : Document) (catalog : Catalog)
    (original_controls : List Control) (control_ids : List String)
    (res : ExtractResult)
    (h1 : data.catalog = some catalog)
    (h2 : catalog.securityControls = some original_controls)
    (h : (extract_controls_by_id data control_ids).1 = Except.ok res) :
    ∃ res2,
      (extract_controls_by_id res.filtered_data control_ids).1 = Except.ok res2 ∧
      res2.filtered_data.controls = res.filtered_data.controls := by
  rw [extract_ok data catalog original_controls control_ids h1 h2] at h
  obtain rfl := (Except.ok.inj h).symm
  rw [extract_ok _ (filteredCatalog catalog original_controls control_ids)
    (filteredControls original_controls control_ids) control_ids rfl rfl]
  refine ⟨_, rfl, ?_⟩
  show some (filteredControls (filteredControls original_controls control_ids) control_ids) =
    some (filteredControls original_controls control_ids)
  rw [filteredControls_idem]

/-- The concrete result of filtering the sample document for id `A`. -/
def exRes : ExtractResult :=
  { filtered_data :=
      { catalog := some (filteredCatalog exCatalog [ctrlA, ctrlB, ctrlNoId, ctrlNumId] ["A"])
        extra := exDoc.extra }
    missing_ids := missingIds [ctrlA, ctrlB, ctrlNoId, ctrlNumId] ["A"] }

/-- C7 witness at a concrete document. -/
theorem C7_witness :
    ∃ res2,
      (extract_controls_by_id exRes.filtered_data ["A"]).1 = Except.ok res2 ∧
      res2.filtered_data.controls = exRes.filtered_data.controls :=
  C7_refilter_idempotent exDoc exCatalog [ctrlA, ctrlB, ctrlNoId, ctrlNumId] ["A"]
    exRes rfl rfl rfl

/-- C8 A control whose `controlId` is absent or not a string never matches
any requested identifier: it is dropped from the output and the operation
still succeeds. -/
theorem C8_nonstring_id_never_matches (data : Document) (catalog : Catalog)
    (original_controls : List Control) (control_ids : List String) (c : Control)
    (h1 : data.catalog = some catalog)
    (h2 : catalog.securityControls = some original_controls)
    (_hc : c ∈ original_controls)
    (hid : ∀ s : String, c.controlId ≠ some (PyVal.str s)) :
    controlIdMatches control_ids c = false ∧
    ∃ res outControls,
      (extract_controls_by_id data control_ids).1 = Except.ok res ∧
      res.filtered_data.controls = some outControls ∧
      c ∉ outControls := by
  have hm : controlIdMatches control_ids c = false := by
    cases hb : controlIdMatches control_ids c with
    | false => rfl
    | true =>
      obtain ⟨s, hs, _⟩ := (controlIdMatches_iff control_ids c).1 hb
      exact absurd hs (hid s)
  refine ⟨hm, ?_⟩
  rw [extract_ok data catalog original_controls control_ids h1 h2]
  refine ⟨_, _, rfl, rfl, ?_⟩
  intro hmem
  have hp := (List.mem_filter.mp hmem).2
  rw [hm] at hp
  exact Bool.noConfusion hp

/-- C8 witness: the control without a `controlId` key is dropped. -/
theorem C8_witness :
    controlIdMatches ["A"] ctrlNoId = false ∧
    ∃ res outControls,
      (extract_controls_by_id exDoc ["A"]).1 = Except.ok res ∧
      res.filtered_data.controls = some outControls ∧
      ctrlNoId ∉ outControls :=
  C8_nonstring_id_never_matches exDoc exCatalog [ctrlA, ctrlB, ctrlNoId, ctrlNumId]
    ["A"] ctrlNoId rfl rfl (by decide) (fun s h => Option.noConfusion h)

/-- C9 When the catalog has no title key, the output title starts with the
fixed default prefix instead of an empty string. -/
theorem C9_default_title (data : Document) (catalog : Catalog)
    (original_controls : List Control) (control_ids : List String)
    (h1 : data.catalog = some catalog)
    (h2 : catalog.securityControls = some original_controls)
    (ht : catalog.title = none) :
    ∃ res outCatalog outControls,
      (extract_controls_by_id data control_ids).1 = Except.ok res ∧
      res.filtered_data.catalog = some outCatalog ∧
      outCatalog.securityControls = some outControls ∧
      outCatalog.title =
        some ("NIST CSF 2.0 (Filtered - " ++ toString outControls.length ++ " controls)") := by
  rw [extract_ok data catalog original_controls control_ids h1 h2]
  refine ⟨_, _, _, rfl, rfl, rfl, ?_⟩
  have hlit : ("NIST CSF 2.0" : String) ++ " (Filtered - " = "NIST CSF 2.0 (Filtered - " := rfl
  simp only [filteredCatalog, filteredTitle, ht, Option.getD_none]
  rw [hlit]

/-- A sample catalog whose `title` key is absent. -/
def noTitleCatalog : Catalog :=
  { title := none, description := some "D", securityControls := some [ctrlA, ctrlB]
    extra := [] }

/-- A sample document whose catalog has no title. -/
def noTitleDoc : Document :=
  { catalog := some noTitleCatalog, extra := [] }

/-- C9 witness at a concrete document without a title. -/
theorem C9_witness :
    ∃ res outCatalog outControls,
      (extract_controls_by_id noTitleDoc ["B"]).1 = Except.ok res ∧
      res.filtered_data.catalog = some outCatalog ∧
      outCatalog.securityControls = some outControls ∧
      outCatalog.title =
        some ("NIST CSF 2.0 (Filtered - " ++ toString outControls.length ++ " controls)") :=
  C9_default_title noTitleDoc noTitleCatalog [ctrlA, ctrlB] ["B"] rfl rfl rfl

/-- C10 At the invocation surface, an explicit but empty `--controls` list is
falsy in Python and is replaced by the built-in default list of 22
identifiers; no invocation reaches the filter with an empty identifier
list. -/
theorem C10_empty_controls_flag_uses_default :
    resolveControlIds (some []) = TARGET_CONTROL_IDS ∧
    TARGET_CONTROL_IDS.length = 22 ∧
    ∀ argControls : Option (List String), 0 < (resolveControlIds argControls).length := by
  refine ⟨rfl, rfl, ?_⟩
  intro a
  cases a with
  | none => decide
  | some l =>
    cases l with
    | nil => decide
    | cons x xs => simp [resolveControlIds]

end NistCsf
